import Mathlib

/-!
Shallow embedding of `inferno/dataset.py` (the indexing layer, `Dataset`, and
`CVSplit`), together with proofs checking the natural-language specification
against it.

Machine data is modelled one-dimensionally with integer entries: a numpy array
is `Container.arr`, a torch tensor is `Container.tensor`, a pandas NDFrame is
`Container.frame` (named columns of equal length), a dict is `Container.map`, a
list/tuple is `Container.seq`, and a plain number is `Container.scalar`.
Python exceptions are modelled by `Except Err`, with `Err` distinguishing the
error classes and messages that `dataset.py` raises or catches.
-/

/-- Error kinds: Python exception classes, split by message where the code
distinguishes them. `typeError` is `TypeError`, `keyError` is `KeyError`,
`attributeError` is `AttributeError`, `indexOOB` is an out-of-bounds
`IndexError`, `indexTypeError` is the `IndexError` raised by `multi_indexing`
for arrays of non-integer non-boolean dtype, `inconsistentLengths` is the
`ValueError` from `get_len`, `xyLengthMismatch` the `ValueError` from
`Dataset.__init__`, `configurationError` the `ValueError` from
`CVSplit.__init__`, and `stratificationError` the `ValueError` from
`CVSplit.__call__`. -/
inductive Err where
  | typeError
  | keyError
  | attributeError
  | indexOOB
  | indexTypeError
  | inconsistentLengths
  | xyLengthMismatch
  | configurationError
  | stratificationError
deriving DecidableEq, Repr

/-- Index forms accepted by `multi_indexing`: an integer, a slice (start/stop,
step 1, Python `None` bounds as `Option`), a plain Python list of integers, a
numpy boolean array, a numpy integer array, or a numpy array of any other
dtype (e.g. float). -/
inductive Idx where
  | int (k : Int)
  | slice (a b : Option Int)
  | ilist (ks : List Int)
  | arrBool (bs : List Bool)
  | arrInt (ks : List Int)
  | arrOther
deriving DecidableEq, Repr

/-- Index forms left after the normalization block of `multi_indexing`
(lines 82-89): numpy arrays have been converted to plain lists or rejected. -/
inductive NIdx where
  | int (k : Int)
  | slice (a b : Option Int)
  | ilist (ks : List Int)
deriving DecidableEq, Repr

/-- The nested heterogeneous containers `dataset.py` operates on. -/
inductive Container where
  | arr (xs : List Int)
  | tensor (xs : List Int)
  | frame (cols : List (String × List Int))
  | map (es : List (String × Container))
  | seq (xs : List Container)
  | scalar (x : Int)
deriving Repr

/-- Resolution of a possibly negative Python index against a length. -/
def py_resolve (n : Nat) (k : Int) : Int :=
  if k < 0 then k + n else k

/-- Python element access `xs[k]` with negative-index wraparound and an
`IndexError` out of bounds. -/
def py_elem {α : Type} (xs : List α) (k : Int) : Except Err α :=
  if h : 0 ≤ py_resolve xs.length k ∧ (py_resolve xs.length k).toNat < xs.length
  then .ok (xs.get ⟨(py_resolve xs.length k).toNat, h.2⟩)
  else .error .indexOOB

/-- Python slice `xs[a:b]` (step 1): `None` bounds default to the ends,
negative bounds wrap, and everything clamps to the list. -/
def py_slice_bound (n : Nat) (d : Nat) : Option Int → Nat
  | none => d
  | some k => (if k < 0 then k + n else k).toNat.min n

def py_slice {α : Type} (xs : List α) (a b : Option Int) : List α :=
  let s := py_slice_bound xs.length 0 a
  let e := py_slice_bound xs.length xs.length b
  (xs.drop s).take (e - s)

/-- Numpy fancy indexing of a 1-D array by an integer list. -/
def np_fancy (xs : List Int) : List Int → Except Err (List Int)
  | [] => .ok []
  | k :: rest =>
    match py_elem xs k with
    | .error e => .error e
    | .ok v =>
      match np_fancy xs rest with
      | .error e => .error e
      | .ok vs => .ok (v :: vs)

/-- Positions of the `true` entries of a boolean mask, i.e.
`np.ndarray.nonzero()[0]` for a 1-D boolean array. -/
def true_positions_from (j : Int) : List Bool → List Int
  | [] => []
  | b :: rest =>
    if b then j :: true_positions_from (j + 1) rest
    else true_positions_from (j + 1) rest

def true_positions (bs : List Bool) : List Int := true_positions_from 0 bs

/-- Index normalization of `multi_indexing` (lines 82-89): a boolean array
becomes the integer positions where it is true and then a plain list; an
integer array becomes a plain list; an array of any other dtype raises
`IndexError("arrays used as indices must be of integer (or boolean) type")`;
non-array indices pass through. -/
def normalize_idx : Idx → Except Err NIdx
  | .int k => .ok (.int k)
  | .slice a b => .ok (.slice a b)
  | .ilist ks => .ok (.ilist ks)
  | .arrBool bs => .ok (.ilist (true_positions bs))
  | .arrInt ks => .ok (.ilist ks)
  | .arrOther => .error .indexTypeError

/-- The Python `v[i]` operation on each container type, with a normalized index.
This is what the dict branch of `multi_indexing` applies to every value
(`{k: v[i] for k, v in data.items()}`), and what the list branch falls back
to for int/slice indices. Old-torch tensors reject plain-list indices with
`TypeError` (hence the `LongTensor` bridge in `multi_indexing`); Python lists
likewise reject list indices; dict lookup with an int key fails with
`KeyError` (keys here are strings) and with an unhashable slice/list fails
with `TypeError`; `frame[...]` is pandas column access, failing with
`KeyError` for labels that are not column names, while a slice row-slices. -/
def py_getitem (v : Container) (i : NIdx) : Except Err Container :=
  match v, i with
  | .arr xs, .int k => (py_elem xs k).map .scalar
  | .arr xs, .slice a b => .ok (.arr (py_slice xs a b))
  | .arr xs, .ilist ks => (np_fancy xs ks).map .arr
  | .tensor xs, .int k => (py_elem xs k).map .scalar
  | .tensor xs, .slice a b => .ok (.tensor (py_slice xs a b))
  | .tensor _, .ilist _ => .error .typeError
  | .seq xs, .int k => py_elem xs k
  | .seq xs, .slice a b => .ok (.seq (py_slice xs a b))
  | .seq _, .ilist _ => .error .typeError
  | .map _, .int _ => .error .keyError
  | .map _, .slice _ _ => .error .typeError
  | .map _, .ilist _ => .error .keyError
  | .frame _, .int _ => .error .keyError
  | .frame cols, .slice a b => .ok (.frame (cols.map (fun kc => (kc.1, py_slice kc.2 a b))))
  | .frame _, .ilist _ => .error .keyError
  | .scalar _, _ => .error .typeError

/-- Row selection by integer positions on each column of a frame. -/
def frame_rows_fancy : List (String × List Int) → List Int → Except Err (List (String × List Int))
  | [], _ => .ok []
  | kc :: rest, ks =>
    match np_fancy kc.2 ks with
    | .error e => .error e
    | .ok col =>
      match frame_rows_fancy rest ks with
      | .error e => .error e
      | .ok cols => .ok ((kc.1, col) :: cols)

/-- One row of a frame, as the dict-like Series `df.iloc[k]` yields. -/
def frame_row_int : List (String × List Int) → Int → Except Err (List (String × Container))
  | [], _ => .ok []
  | kc :: rest, k =>
    match py_elem kc.2 k with
    | .error e => .error e
    | .ok x =>
      match frame_row_int rest k with
      | .error e => .error e
      | .ok row => .ok ((kc.1, Container.scalar x) :: row)

/-- Pandas positional row access `df.iloc[i]`. -/
def frame_iloc (cols : List (String × List Int)) (i : NIdx) : Except Err Container :=
  match i with
  | .int k => (frame_row_int cols k).map .map
  | .slice a b => .ok (.frame (cols.map (fun kc => (kc.1, py_slice kc.2 a b))))
  | .ilist ks => (frame_rows_fancy cols ks).map .frame

/-- The per-index list comprehension `[X[i] for i in indices]` the fallback
indexer uses for plain sequences. -/
def seq_comprehend (xs : List Container) : List Int → Except Err (List Container)
  | [] => .ok []
  | k :: rest =>
    match py_elem xs k with
    | .error e => .error e
    | .ok v =>
      match seq_comprehend xs rest with
      | .error e => .error e
      | .ok vs => .ok (v :: vs)

/-- Modelled from the spec: the "generic fallback indexing capability"
(the sklearn `safe_indexing` helper, an external dependency, not under src/):
pandas objects are indexed with `iloc`, array-likes with `take` along the
first axis, and anything else with a per-index list comprehension (which
fails on dicts with `KeyError` and on scalars with `TypeError`). -/
def safe_indexing (data : Container) (ks : List Int) : Except Err Container :=
  match data with
  | .frame cols => (frame_rows_fancy cols ks).map .frame
  | .arr xs => (np_fancy xs ks).map .arr
  | .tensor xs => (np_fancy xs ks).map .tensor
  | .seq xs =>
    match seq_comprehend xs ks with
    | .error e => .error e
    | .ok rs => .ok (.seq rs)
  | .map _ => .error .keyError
  | .scalar _ => .error .typeError

/-- The tail of the dispatch of `multi_indexing` (lines 100-111), reached for data
that is not a dict and either is not a list/tuple or fell through the
list/tuple branch on `TypeError`: a torch tensor bridges a plain integer list
to `torch.LongTensor` before indexing, a pandas frame uses `iloc`, and
otherwise an int/slice index applies directly while any other index is
delegated to `safe_indexing`. -/
def mi_tail (data : Container) (i : NIdx) : Except Err Container :=
  match data with
  | .tensor xs =>
    match i with
    | .ilist ks => (np_fancy xs ks).map .tensor
    | .int k => (py_elem xs k).map .scalar
    | .slice a b => .ok (.tensor (py_slice xs a b))
  | .frame cols => frame_iloc cols i
  | d =>
    match i with
    | .int k => py_getitem d (.int k)
    | .slice a b => py_getitem d (.slice a b)
    | .ilist ks => safe_indexing d ks

/-- The dict branch of `multi_indexing` (lines 91-93):
`{k: v[i] for k, v in data.items()}` — note the direct `v[i]`, not a
recursive call. -/
def mi_map_vals : List (String × Container) → NIdx → Except Err (List (String × Container))
  | [], _ => .ok []
  | kv :: rest, i =>
    match py_getitem kv.2 i with
    | .error e => .error e
    | .ok v2 =>
      match mi_map_vals rest i with
      | .error e => .error e
      | .ok rs => .ok ((kv.1, v2) :: rs)

mutual
/-- `multi_indexing` after index normalization (lines 91-111). The list/tuple
branch tries `[multi_indexing(x, i) for x in data]` and on `TypeError` falls
through (`pass`) to the remaining checks. -/
def mi_dispatch (data : Container) (i : NIdx) : Except Err Container :=
  match data with
  | .map es =>
    match mi_map_vals es i with
    | .error e => .error e
    | .ok es2 => .ok (.map es2)
  | .seq xs =>
    match mi_list xs i with
    | .ok rs => .ok (.seq rs)
    | .error .typeError => mi_tail (.seq xs) i
    | .error e => .error e
  | d => mi_tail d i

def mi_list : List Container → NIdx → Except Err (List Container)
  | [], _ => .ok []
  | x :: rest, i =>
    match mi_dispatch x i with
    | .error e => .error e
    | .ok r =>
      match mi_list rest i with
      | .error e => .error e
      | .ok rs => .ok (r :: rs)
end

/-- `multi_indexing(data, i)` (lines 44-111): normalize the index, then
dispatch on the container type. -/
def multi_indexing (data : Container) (i : Idx) : Except Err Container :=
  match normalize_idx i with
  | .error e => .error e
  | .ok i2 => mi_dispatch data i2

/-- Python `len` on each container: first-dimension extent for arrays,
tensors and frames, entry count for dicts and lists, `TypeError` for a plain
number. Frame rows are the length of the first column (columns of a frame
share their length). -/
def py_len : Container → Except Err Nat
  | .arr xs => .ok xs.length
  | .tensor xs => .ok xs.length
  | .frame cols => .ok ((cols.head?.map (fun kc => kc.2.length)).getD 0)
  | .map es => .ok es.length
  | .seq xs => .ok xs.length
  | .scalar _ => .error .typeError

/-- The nested list-of-lengths structure built by
`_apply_to_data(data, len, unpack_dict=True)` before flattening. -/
inductive LenTree where
  | leaf (n : Nat)
  | node (ts : List LenTree)
deriving Repr

mutual
/-- Modelled from the spec: `flatten` (in `inferno.utils`, not under src/)
turns the nested result of `_apply_to_data` into "a flat list of per-leaf
lengths" (spec section 4.1). -/
def LenTree.flat : LenTree → List Nat
  | .leaf n => [n]
  | .node ts => LenTree.flatList ts

def LenTree.flatList : List LenTree → List Nat
  | [] => []
  | t :: ts => t.flat ++ LenTree.flatList ts
end

mutual
/-- `_apply_to_data(data, func, unpack_dict)` (lines 19-32), specialized at
`func = len`, `unpack_dict = True`, as `get_len` calls it: a dict maps over
its values (unpacked to a list, keys dropped), a list/tuple tries each
element and on `TypeError` falls back to `len` of the whole list, and
anything else gets `len` applied directly. -/
def _apply_to_data_len : Container → Except Err LenTree
  | .map es =>
    match _apply_to_data_len_vals es with
    | .error e => .error e
    | .ok ts => .ok (.node ts)
  | .seq xs =>
    match _apply_to_data_len_list xs with
    | .ok ts => .ok (.node ts)
    | .error .typeError => .ok (.leaf xs.length)
    | .error e => .error e
  | c =>
    match py_len c with
    | .error e => .error e
    | .ok n => .ok (.leaf n)

def _apply_to_data_len_vals : List (String × Container) → Except Err (List LenTree)
  | [] => .ok []
  | kv :: rest =>
    match _apply_to_data_len kv.2 with
    | .error e => .error e
    | .ok t =>
      match _apply_to_data_len_vals rest with
      | .error e => .error e
      | .ok ts => .ok (t :: ts)

def _apply_to_data_len_list : List Container → Except Err (List LenTree)
  | [] => .ok []
  | x :: rest =>
    match _apply_to_data_len x with
    | .error e => .error e
    | .ok t =>
      match _apply_to_data_len_list rest with
      | .error e => .error e
      | .ok ts => .ok (t :: ts)
end

/-- The flat list of leaf lengths `get_len` collects:
`list(flatten([_apply_to_data(data, len, unpack_dict=True)]))`. -/
def leaf_lens (data : Container) : Except Err (List Nat) :=
  match _apply_to_data_len data with
  | .error e => .error e
  | .ok t => .ok t.flat

/-- `get_len(data)` (lines 35-41): collect the flattened leaf lengths, form
their set, raise `ValueError("Dataset does not have consistent lengths.")`
unless the set has exactly one element, and return that element. -/
def get_len (data : Container) : Except Err Nat :=
  match leaf_lens data with
  | .error e => .error e
  | .ok lens =>
    match lens.dedup with
    | [n] => .ok n
    | _ => .error .inconsistentLengths

mutual
/-- Modelled from the spec: `to_tensor` (in `inferno.utils`, not under src/)
converts both slices "to tensors, placed per device_placement" (spec section
4.3), mapping over Mapping and Sequence structure; the device placement flag
has no observable effect in this model. -/
def to_tensor (c : Container) (use_cuda : Bool) : Container :=
  match c with
  | .arr xs => .tensor xs
  | .tensor xs => .tensor xs
  | .frame cols => .frame cols
  | .scalar x => .scalar x
  | .map es => .map (to_tensor_kvs es use_cuda)
  | .seq xs => .seq (to_tensor_list xs use_cuda)

def to_tensor_kvs (es : List (String × Container)) (use_cuda : Bool) : List (String × Container) :=
  match es with
  | [] => []
  | kv :: rest => (kv.1, to_tensor kv.2 use_cuda) :: to_tensor_kvs rest use_cuda

def to_tensor_list (xs : List Container) (use_cuda : Bool) : List Container :=
  match xs with
  | [] => []
  | x :: rest => to_tensor x use_cuda :: to_tensor_list rest use_cuda
end

/-- `is_pandas_ndframe` (inferno.utils): whether the container is a pandas
NDFrame. -/
def is_pandas_ndframe : Container → Bool
  | .frame _ => true
  | _ => false

/-- The `Dataset` object state: `__init__` stores the explicit length in the
attribute `_length` (line 161) but the resolved length in the attribute
`_len` (line 169); an attribute is `none` when the corresponding assignment
was never executed, and reading it then raises `AttributeError`. -/
structure Dataset where
  X : Container
  y : Option Container
  use_cuda : Bool
  _length : Option Nat
  _len : Option Nat

/-- `Dataset.__init__` (lines 149-169): with an explicit `length` argument,
store it in `self._length` and return at once, resolving nothing; otherwise
resolve `len(X)` via `get_len`, cross-check `len(y)` when `y` is present
(raising `ValueError("X and y have inconsistent lengths.")` on mismatch),
and store the result in `self._len`. -/
def Dataset.init (X : Container) (y : Option Container) (use_cuda : Bool)
    (length : Option Nat) : Except Err Dataset :=
  match length with
  | some n => .ok { X := X, y := y, use_cuda := use_cuda, _length := some n, _len := none }
  | none =>
    match get_len X with
    | .error e => .error e
    | .ok len_X =>
      match y with
      | none => .ok { X := X, y := y, use_cuda := use_cuda, _length := none, _len := some len_X }
      | some yy =>
        match get_len yy with
        | .error e => .error e
        | .ok len_y =>
          if len_y ≠ len_X then .error .xyLengthMismatch
          else .ok { X := X, y := y, use_cuda := use_cuda, _length := none, _len := some len_X }

/-- `Dataset.__len__` (lines 171-172): `return self._len` — reading the
attribute `_len`, which the explicit-length path of `__init__` never sets. -/
def Dataset.len (d : Dataset) : Except Err Nat :=
  match d._len with
  | some n => .ok n
  | none => .error .attributeError

/-- The frame fan-out at the top of `__getitem__` (lines 176-177):
`X = {k: X[k].values.reshape(-1, 1) for k in X}`. The trailing singleton
dimension of `reshape(-1, 1)` is not observable in this 1-D model, so each
column becomes a plain array. -/
def expand_frame : Container → Container
  | .frame cols => .map (cols.map (fun kc => (kc.1, .arr kc.2)))
  | c => c

/-- `Dataset.__getitem__` (lines 174-188): expand a frame `X` into a dict of
column arrays, select `i` from `X`; when `y` is absent synthesize
`torch.zeros(get_len(xi))`, otherwise select `i` from `y`; convert both
results with `to_tensor`. -/
def Dataset.getitem (d : Dataset) (i : Idx) : Except Err (Container × Container) :=
  let X := if is_pandas_ndframe d.X then expand_frame d.X else d.X
  match multi_indexing X i with
  | .error e => .error e
  | .ok xi =>
    match d.y with
    | none =>
      match get_len xi with
      | .error e => .error e
      | .ok n => .ok (to_tensor xi d.use_cuda, to_tensor (.tensor (List.replicate n 0)) d.use_cuda)
    | some yy =>
      match multi_indexing yy i with
      | .error e => .error e
      | .ok yi => .ok (to_tensor xi d.use_cuda, to_tensor yi d.use_cuda)

/-- Concrete cross-validation generator objects, by kind: the sklearn splitter
classes `dataset.py` names (`KFold`, `StratifiedKFold`, `ShuffleSplit`,
`StratifiedShuffleSplit`), a wrapper around an iterable of index pairs, and
any other generator object. Fractions are rationals. -/
inductive Splitter where
  | kfold (k : Nat)
  | stratKFold (k : Nat)
  | shuffleSplit (testSize : Rat)
  | stratShuffleSplit (testSize : Rat)
  | wrappedIter
  | otherGen
deriving DecidableEq, Repr

/-- The `cv` argument of `CVSplit`: `None`, an integer, a float, a
cross-validation generator object, or an iterable of train/test index pairs.
Numbers are modelled as `Int` and `Rat`. -/
inductive CVSpec where
  | none
  | int (n : Int)
  | float (q : Rat)
  | splitterObj (s : Splitter)
  | iterable
deriving DecidableEq, Repr

def CVSpec.isNumber : CVSpec → Bool
  | .int _ => true
  | .float _ => true
  | _ => false

def CVSpec.numVal : CVSpec → Rat
  | .int n => (n : Rat)
  | .float q => q
  | _ => 0

/-- Argument shapes accepted by the sklearn `check_cv` resolver. -/
inductive SkArg where
  | folds (k : Nat)
  | obj (s : Splitter)
  | iter
deriving DecidableEq, Repr

/-- Whether `y` looks like a binary/multiclass label array to the external
resolver. -/
def is_class_labels : Option Container → Bool
  | some (.arr _) => true
  | some (.tensor _) => true
  | _ => false

/-- Modelled from the spec: the sklearn `check_cv` resolver (an external capability, not
under src/): "None → default k-fold, integer → k-fold with that many folds,
an already-concrete generator → itself, or an iterable of index pairs →
wrapped as a generator" (spec section 4.4 step 3), with the stratified k-fold
variant chosen when the classifier flag is set and `y` is a label array. -/
def sk_check_cv (cv : SkArg) (y_arr : Option Container) (classifier : Bool) : Splitter :=
  match cv with
  | .obj s => s
  | .iter => .wrappedIter
  | .folds k => if classifier && is_class_labels y_arr then .stratKFold k else .kfold k

/-- Modelled from the spec: `to_numpy` (in `inferno.utils`, not under src/)
coerces a tensor / array / frame "into a plain numeric array form" (spec
section 4.4 step 1); on data without the needed attributes (dicts, plain
sequences, scalars) it fails with `AttributeError`, the failure the resolver
tolerates (spec section 7). A frame coerces via its 2-D `values`, flattened
here since the model is 1-D. -/
def to_numpy : Container → Except Err Container
  | .arr xs => .ok (.arr xs)
  | .tensor xs => .ok (.arr xs)
  | .frame cols => .ok (.arr (cols.flatMap (fun kc => kc.2)))
  | .map _ => .error .attributeError
  | .seq _ => .error .attributeError
  | .scalar _ => .error .attributeError

/-- `to_numpy` applied to an optional `y`: Python `None` has none of the
attributes `to_numpy` needs, so it also fails with `AttributeError`. -/
def to_numpy_opt : Option Container → Except Err (Option Container)
  | none => .error .attributeError
  | some c =>
    match to_numpy c with
    | .error e => .error e
    | .ok v => .ok (some v)

/-- The `CVSplit` object state: the split spec `cv` and the `stratified`
flag. -/
structure CVSplit where
  cv : CVSpec
  stratified : Bool
deriving DecidableEq, Repr

/-- `CVSplit.__init__` (lines 225-231): raise
`ValueError("Numbers less than 0 are not allowed for cv ...")` when `cv` is a
`Number` with `cv <= 0`; otherwise store the configuration. -/
def CVSplit.init (cv : CVSpec) (stratified : Bool) : Except Err CVSplit :=
  if cv.isNumber && decide (cv.numVal ≤ 0) then .error .configurationError
  else .ok { cv := cv, stratified := stratified }

/-- `CVSplit._is_stratified(cv)` (lines 233-234):
`isinstance(cv, (StratifiedKFold, StratifiedShuffleSplit))`. -/
def CVSplit._is_stratified (_self : CVSplit) (cv : Splitter) : Bool :=
  match cv with
  | .stratKFold _ => true
  | .stratShuffleSplit _ => true
  | _ => false

/-- `CVSplit._is_float` (lines 236-239): `self.cv` is a `Number` whose float
value is not integral (the `x` parameter is ignored by the source). -/
def CVSplit._is_float (self : CVSplit) : Bool :=
  match self.cv with
  | .int _ => false
  | .float q => !(q.den = 1)
  | _ => false

/-- The splitter handed to the sklearn `check_cv` resolver by `_check_cv_float`
(lines 241-247): `StratifiedShuffleSplit(test_size=cv)` when stratified,
else `ShuffleSplit(test_size=cv)`. -/
def CVSplit.float_cv_cls (self : CVSplit) : Splitter :=
  if self.stratified then .stratShuffleSplit self.cv.numVal
  else .shuffleSplit self.cv.numVal

/-- The `SkArg` that `_check_cv_non_float` (lines 249-254) passes through to
the sklearn `check_cv` resolver: `None` means the default 3-fold. An integral float
reaching this path is treated as a fold count. -/
def CVSpec.skArg : CVSpec → SkArg
  | .none => .folds 3
  | .int n => .folds n.toNat
  | .float q => .folds q.num.toNat
  | .splitterObj s => .obj s
  | .iterable => .iter

/-- The resolution `check_cv` performs once `y_arr` is fixed: the float path
builds a shuffle splitter (`_check_cv_float`), the non-float path passes
`self.cv` through (`_check_cv_non_float`), both via the sklearn `check_cv` resolver
with `classifier=self.stratified`. -/
def CVSplit.check_cv_with (self : CVSplit) (y_arr : Option Container) : Splitter :=
  if self._is_float then sk_check_cv (.obj self.float_cv_cls) y_arr self.stratified
  else sk_check_cv self.cv.skArg y_arr self.stratified

/-- `CVSplit.check_cv(y)` (lines 256-266): when stratified, try
`y_arr = to_numpy(y)` and on `AttributeError` — and only on
`AttributeError` — fall back to `y_arr = y`; then resolve via the float or
non-float path. -/
def CVSplit.check_cv (self : CVSplit) (y : Option Container) : Except Err Splitter :=
  match (if self.stratified then
          match to_numpy_opt y with
          | .ok v => Except.ok v
          | .error .attributeError => Except.ok y
          | .error e => Except.error e
         else Except.ok Option.none : Except Err (Option Container)) with
  | .error e => .error e
  | .ok y_arr => .ok (self.check_cv_with y_arr)

/-- `CVSplit._is_regular(x)` (lines 268-269): `x` is `None`, a numpy array,
or a pandas NDFrame. -/
def CVSplit._is_regular (_self : CVSplit) (x : Option Container) : Bool :=
  match x with
  | Option.none => true
  | some (.arr _) => true
  | some (.frame _) => true
  | _ => false

/-- The four-tuple `(X_train, X_valid, y_train, y_valid)`. -/
abbrev SplitResult : Type :=
  Container × Container × Option Container × Option Container

/-- Modelled from the spec: the external splitter capability, "a concrete
splitter object exposing a `split(...) -> iterator of (train_idx,
valid_idx)`" (spec section 6) of which only the first pair is taken
(`next(iter(...))`). A split function receives the splitter, the data passed
as first argument, and the optional label argument, and yields that first
index pair. -/
abbrev SplitFn : Type :=
  Splitter → Container → Option Container → List Nat × List Nat

/-- `CVSplit.regular_cv(X, y, cv)` (lines 271-283): take the first
`(idx_train, idx_valid)` from `cv.split(X, y)` (stratified) or `cv.split(X)`,
index `X` and `y` with `safe_indexing`, and leave `y_train`/`y_valid` as
`None` when `y` is `None`. -/
def CVSplit.regular_cv (self : CVSplit) (fs : SplitFn) (X : Container)
    (y : Option Container) (cv : Splitter) : Except Err SplitResult :=
  let idx := fs cv X (if self.stratified then y else Option.none)
  match safe_indexing X (idx.1.map Int.ofNat) with
  | .error e => .error e
  | .ok X_train =>
    match safe_indexing X (idx.2.map Int.ofNat) with
    | .error e => .error e
    | .ok X_valid =>
      match y with
      | Option.none => .ok (X_train, X_valid, Option.none, Option.none)
      | some yy =>
        match safe_indexing yy (idx.1.map Int.ofNat) with
        | .error e => .error e
        | .ok y_train =>
          match safe_indexing yy (idx.2.map Int.ofNat) with
          | .error e => .error e
          | .ok y_valid => .ok (X_train, X_valid, some y_train, some y_valid)

/-- `np.arange(n)` as a container. -/
def np_arange (n : Nat) : Container :=
  .arr ((List.range n).map Int.ofNat)

/-- `CVSplit.special_cv(X, y, cv)` (lines 285-300): build `Dataset(X, y)`,
split `np.arange(len(dataset))` (adding `to_numpy(y)` as labels when the
splitter is stratified — uncaught here, so a failing coercion propagates),
take the first index pair, and read both partitions through
`dataset[idx]`, whose two components are always materialized tensors. -/
def CVSplit.special_cv (self : CVSplit) (fs : SplitFn) (X : Container)
    (y : Option Container) (cv : Splitter) : Except Err SplitResult :=
  match Dataset.init X y false Option.none with
  | .error e => .error e
  | .ok ds =>
    match Dataset.len ds with
    | .error e => .error e
    | .ok num_samples =>
      match (if self._is_stratified cv then to_numpy_opt y
             else Except.ok Option.none : Except Err (Option Container)) with
      | .error e => .error e
      | .ok labels =>
        let idx := fs cv (np_arange num_samples) labels
        match Dataset.getitem ds (.arrInt (idx.1.map Int.ofNat)) with
        | .error e => .error e
        | .ok Xy_train =>
          match Dataset.getitem ds (.arrInt (idx.2.map Int.ofNat)) with
          | .error e => .error e
          | .ok Xy_valid =>
            .ok (Xy_train.1, Xy_valid.1, some Xy_train.2, some Xy_valid.2)

/-- `CVSplit.__call__(X, y)` (lines 302-311): resolve the concrete splitter,
raise `ValueError("Stratified CV not possible with given y.")` when
stratification was requested but the resolved splitter is not a stratified
kind, then take the regular path when both `X` and `y` are regular and the
`Dataset` fallback path otherwise. -/
def CVSplit.call (self : CVSplit) (fs : SplitFn) (X : Container)
    (y : Option Container) : Except Err SplitResult :=
  match self.check_cv y with
  | .error e => .error e
  | .ok cv =>
    if self.stratified && !(self._is_stratified cv) then .error .stratificationError
    else if self._is_regular (some X) && self._is_regular y then self.regular_cv fs X y cv
    else self.special_cv fs X y cv

/-- A concrete split function used to instantiate universally quantified
statements: it always yields `([0, 1], [2, 3])`. -/
def demo_split : SplitFn := fun _ _ _ => ([0, 1], [2, 3])

/-- Selection on a Mapping as the source actually performs it (the amended
reading of the Mapping clause of the spec): every value is indexed directly
with its own `[]` operator, keys preserved, with no recursive dispatch
through `multi_indexing`. -/
def select_map_direct (es : List (String × Container)) (i : NIdx) :
    Except Err (List (String × Container)) :=
  match es with
  | [] => .ok []
  | kv :: rest =>
    match py_getitem kv.2 i, select_map_direct rest i with
    | .error e, _ => .error e
    | .ok _, .error e => .error e
    | .ok v2, .ok rs => .ok ((kv.1, v2) :: rs)

mutual
/-- Structural induction principle for the nested `Container` type. -/
def Container.indOn (P : Container → Prop)
    (harr : ∀ xs, P (.arr xs)) (htensor : ∀ xs, P (.tensor xs))
    (hframe : ∀ cols, P (.frame cols)) (hscalar : ∀ x, P (.scalar x))
    (hmap : ∀ es, (∀ kv ∈ es, P kv.2) → P (.map es))
    (hseq : ∀ xs, (∀ x ∈ xs, P x) → P (.seq xs)) :
    (c : Container) → P c
  | .arr xs => harr xs
  | .tensor xs => htensor xs
  | .frame cols => hframe cols
  | .scalar x => hscalar x
  | .map es => hmap es (Container.indOnKVs P harr htensor hframe hscalar hmap hseq es)
  | .seq xs => hseq xs (Container.indOnList P harr htensor hframe hscalar hmap hseq xs)

def Container.indOnKVs (P : Container → Prop)
    (harr : ∀ xs, P (.arr xs)) (htensor : ∀ xs, P (.tensor xs))
    (hframe : ∀ cols, P (.frame cols)) (hscalar : ∀ x, P (.scalar x))
    (hmap : ∀ es, (∀ kv ∈ es, P kv.2) → P (.map es))
    (hseq : ∀ xs, (∀ x ∈ xs, P x) → P (.seq xs)) :
    (es : List (String × Container)) → ∀ kv ∈ es, P kv.2
  | [], kv, h => absurd h (List.not_mem_nil kv)
  | kv0 :: rest, kv, h => by
    rcases List.mem_cons.mp h with h2 | h2
    · exact h2 ▸ Container.indOn P harr htensor hframe hscalar hmap hseq kv0.2
    · exact Container.indOnKVs P harr htensor hframe hscalar hmap hseq rest kv h2

def Container.indOnList (P : Container → Prop)
    (harr : ∀ xs, P (.arr xs)) (htensor : ∀ xs, P (.tensor xs))
    (hframe : ∀ cols, P (.frame cols)) (hscalar : ∀ x, P (.scalar x))
    (hmap : ∀ es, (∀ kv ∈ es, P kv.2) → P (.map es))
    (hseq : ∀ xs, (∀ x ∈ xs, P x) → P (.seq xs)) :
    (xs : List Container) → ∀ x ∈ xs, P x
  | [], x, h => absurd h (List.not_mem_nil x)
  | c0 :: rest, x, h => by
    rcases List.mem_cons.mp h with h2 | h2
    · exact h2 ▸ Container.indOn P harr htensor hframe hscalar hmap hseq c0
    · exact Container.indOnList P harr htensor hframe hscalar hmap hseq rest x h2
end

theorem except_map_error {α β : Type} {x : Except Err α} {f : α → β} {e : Err}
    (h : x.map f = .error e) : x = .error e := by
  cases x with
  | error e2 => simp [Except.map] at h; rw [h]
  | ok v => simp [Except.map] at h

theorem py_elem_err {α : Type} {xs : List α} {k : Int} {e : Err}
    (h : py_elem xs k = .error e) : e = .indexOOB := by
  unfold py_elem at h
  split at h
  · exact absurd h (by simp)
  · injection h with h2
    exact h2.symm

theorem np_fancy_err {xs : List Int} {ks : List Int} {e : Err}
    (h : np_fancy xs ks = .error e) : e = .indexOOB := by
  induction ks with
  | nil => simp [np_fancy] at h
  | cons k rest ih =>
    rw [np_fancy] at h
    cases hpe : py_elem xs k with
    | error e2 =>
      rw [hpe] at h
      injection h with h2
      exact h2 ▸ py_elem_err hpe
    | ok v =>
      rw [hpe] at h
      cases hr : np_fancy xs rest with
      | error e3 =>
        rw [hr] at h
        injection h with h2
        exact ih (h2 ▸ hr)
      | ok vs =>
        rw [hr] at h
        exact absurd h (by simp)

theorem py_len_err {c : Container} {e : Err} (h : py_len c = .error e) :
    e = .typeError := by
  cases c <;> simp [py_len] at h
  exact h.symm

theorem py_getitem_err {v : Container} {i : NIdx} {e : Err}
    (h : py_getitem v i = .error e) : e ≠ .indexTypeError := by
  intro hcon
  subst hcon
  cases v <;> cases i <;> simp only [py_getitem] at h <;>
    first
      | simp at h
      | exact absurd (py_elem_err (except_map_error h)) (by decide)
      | exact absurd (np_fancy_err (except_map_error h)) (by decide)
      | exact absurd (py_elem_err h) (by decide)

theorem frame_rows_fancy_err {cols : List (String × List Int)} {ks : List Int} {e : Err}
    (h : frame_rows_fancy cols ks = .error e) : e = .indexOOB := by
  induction cols with
  | nil => simp [frame_rows_fancy] at h
  | cons kc rest ih =>
    rw [frame_rows_fancy] at h
    cases hf : np_fancy kc.2 ks with
    | error e2 =>
      rw [hf] at h
      injection h with h2
      exact h2 ▸ np_fancy_err hf
    | ok col =>
      rw [hf] at h
      cases hr : frame_rows_fancy rest ks with
      | error e3 =>
        rw [hr] at h
        injection h with h2
        exact ih (h2 ▸ hr)
      | ok cols2 =>
        rw [hr] at h
        exact absurd h (by simp)

theorem frame_row_int_err {cols : List (String × List Int)} {k : Int} {e : Err}
    (h : frame_row_int cols k = .error e) : e = .indexOOB := by
  induction cols with
  | nil => simp [frame_row_int] at h
  | cons kc rest ih =>
    rw [frame_row_int] at h
    cases hf : py_elem kc.2 k with
    | error e2 =>
      rw [hf] at h
      injection h with h2
      exact h2 ▸ py_elem_err hf
    | ok x =>
      rw [hf] at h
      cases hr : frame_row_int rest k with
      | error e3 =>
        rw [hr] at h
        injection h with h2
        exact ih (h2 ▸ hr)
      | ok row =>
        rw [hr] at h
        exact absurd h (by simp)

theorem frame_iloc_err {cols : List (String × List Int)} {i : NIdx} {e : Err}
    (h : frame_iloc cols i = .error e) : e = .indexOOB := by
  cases i <;> simp only [frame_iloc] at h
  · exact frame_row_int_err (except_map_error h)
  · exact absurd h (by simp)
  · exact frame_rows_fancy_err (except_map_error h)

theorem seq_comprehend_err {xs : List Container} {ks : List Int} {e : Err}
    (h : seq_comprehend xs ks = .error e) : e = .indexOOB := by
  induction ks with
  | nil => simp [seq_comprehend] at h
  | cons k rest ih =>
    rw [seq_comprehend] at h
    cases hpe : py_elem xs k with
    | error e2 =>
      rw [hpe] at h
      injection h with h2
      exact h2 ▸ py_elem_err hpe
    | ok v =>
      rw [hpe] at h
      cases hr : seq_comprehend xs rest with
      | error e3 =>
        rw [hr] at h
        injection h with h2
        exact ih (h2 ▸ hr)
      | ok vs =>
        rw [hr] at h
        exact absurd h (by simp)

theorem safe_indexing_err {data : Container} {ks : List Int} {e : Err}
    (h : safe_indexing data ks = .error e) : e ≠ .indexTypeError := by
  intro hcon
  subst hcon
  cases data <;> simp only [safe_indexing] at h
  · exact absurd (np_fancy_err (except_map_error h)) (by decide)
  · exact absurd (np_fancy_err (except_map_error h)) (by decide)
  · exact absurd (frame_rows_fancy_err (except_map_error h)) (by decide)
  · simp at h
  · cases hs : seq_comprehend _ ks with
    | error e2 =>
      rw [hs] at h
      injection h with h2
      exact absurd (seq_comprehend_err (h2 ▸ hs)) (by decide)
    | ok rs =>
      rw [hs] at h
      exact absurd h (by simp)
  · simp at h

theorem mi_tail_err {data : Container} {i : NIdx} {e : Err}
    (h : mi_tail data i = .error e) : e ≠ .indexTypeError := by
  intro hcon
  subst hcon
  cases data <;> cases i <;> simp only [mi_tail] at h <;>
    first
      | simp at h
      | exact absurd (py_elem_err (except_map_error h)) (by decide)
      | exact absurd (np_fancy_err (except_map_error h)) (by decide)
      | exact py_getitem_err h rfl
      | exact safe_indexing_err h rfl
      | exact absurd (frame_iloc_err h) (by decide)

theorem mi_map_vals_err {es : List (String × Container)} {i : NIdx} {e : Err}
    (h : mi_map_vals es i = .error e) : e ≠ .indexTypeError := by
  induction es with
  | nil => simp [mi_map_vals] at h
  | cons kv rest ih =>
    rw [mi_map_vals] at h
    cases hg : py_getitem kv.2 i with
    | error e2 =>
      rw [hg] at h
      injection h with h2
      exact h2 ▸ py_getitem_err hg
    | ok v2 =>
      rw [hg] at h
      cases hr : mi_map_vals rest i with
      | error e3 =>
        rw [hr] at h
        injection h with h2
        exact ih (h2 ▸ hr)
      | ok rs =>
        rw [hr] at h
        exact absurd h (by simp)

theorem mi_list_err {xs : List Container} {i : NIdx} {e : Err}
    (ihall : ∀ x ∈ xs, ∀ i2 e2, mi_dispatch x i2 = .error e2 → e2 ≠ Err.indexTypeError)
    (h : mi_list xs i = .error e) : e ≠ .indexTypeError := by
  induction xs with
  | nil => simp [mi_list] at h
  | cons x rest ih =>
    rw [mi_list] at h
    cases hd : mi_dispatch x i with
    | error e2 =>
      rw [hd] at h
      injection h with h2
      exact h2 ▸ ihall x (by simp) i e2 hd
    | ok r =>
      rw [hd] at h
      cases hr : mi_list rest i with
      | error e3 =>
        rw [hr] at h
        injection h with h2
        exact ih (fun x2 hm => ihall x2 (by simp [hm])) (h2 ▸ hr)
      | ok rs =>
        rw [hr] at h
        exact absurd h (by simp)

theorem mi_dispatch_err (data : Container) :
    ∀ i e, mi_dispatch data i = .error e → e ≠ .indexTypeError := by
  induction data using Container.indOn with
  | harr xs => intro i e h; exact mi_tail_err (by simp only [mi_dispatch] at h; exact h)
  | htensor xs => intro i e h; exact mi_tail_err (by simp only [mi_dispatch] at h; exact h)
  | hframe cols => intro i e h; exact mi_tail_err (by simp only [mi_dispatch] at h; exact h)
  | hscalar x => intro i e h; exact mi_tail_err (by simp only [mi_dispatch] at h; exact h)
  | hmap es ihes =>
    intro i e h
    rw [mi_dispatch] at h
    cases hm : mi_map_vals es i with
    | error e2 =>
      rw [hm] at h
      injection h with h2
      exact h2 ▸ mi_map_vals_err hm
    | ok es2 =>
      rw [hm] at h
      exact absurd h (by simp)
  | hseq xs ihxs =>
    intro i e h
    rw [mi_dispatch] at h
    cases hl : mi_list xs i with
    | error e2 =>
      rw [hl] at h
      cases e2
      case typeError => exact mi_tail_err h
      all_goals
        injection h with h2
        exact h2 ▸ mi_list_err ihxs hl
    | ok rs =>
      rw [hl] at h
      exact absurd h (by simp)

theorem _apply_to_data_len_vals_err_aux {es : List (String × Container)}
    (ihall : ∀ kv ∈ es, ∀ e, _apply_to_data_len kv.2 = .error e → e = Err.typeError) :
    ∀ e, _apply_to_data_len_vals es = .error e → e = .typeError := by
  induction es with
  | nil => intro e h; simp [_apply_to_data_len_vals] at h
  | cons kv rest ih =>
    intro e h
    rw [_apply_to_data_len_vals] at h
    cases hv : _apply_to_data_len kv.2 with
    | error e2 =>
      rw [hv] at h
      injection h with h2
      exact ihall kv (by simp) e (h2 ▸ hv)
    | ok t =>
      rw [hv] at h
      cases hr : _apply_to_data_len_vals rest with
      | error e3 =>
        rw [hr] at h
        injection h with h2
        exact ih (fun kv2 hm => ihall kv2 (by simp [hm])) e (h2 ▸ hr)
      | ok ts =>
        rw [hr] at h
        exact absurd h (by simp)

theorem _apply_to_data_len_list_err_aux {xs : List Container}
    (ihall : ∀ x ∈ xs, ∀ e, _apply_to_data_len x = .error e → e = Err.typeError) :
    ∀ e, _apply_to_data_len_list xs = .error e → e = .typeError := by
  induction xs with
  | nil => intro e h; simp [_apply_to_data_len_list] at h
  | cons x rest ih =>
    intro e h
    rw [_apply_to_data_len_list] at h
    cases hv : _apply_to_data_len x with
    | error e2 =>
      rw [hv] at h
      injection h with h2
      exact ihall x (by simp) e (h2 ▸ hv)
    | ok t =>
      rw [hv] at h
      cases hr : _apply_to_data_len_list rest with
      | error e3 =>
        rw [hr] at h
        injection h with h2
        exact ih (fun x2 hm => ihall x2 (by simp [hm])) e (h2 ▸ hr)
      | ok ts =>
        rw [hr] at h
        exact absurd h (by simp)

theorem _apply_to_data_len_err (c : Container) :
    ∀ e, _apply_to_data_len c = .error e → e = .typeError := by
  induction c using Container.indOn with
  | harr xs => intro e h; simp [_apply_to_data_len, py_len] at h
  | htensor xs => intro e h; simp [_apply_to_data_len, py_len] at h
  | hframe cols => intro e h; simp [_apply_to_data_len, py_len] at h
  | hscalar x =>
    intro e h
    simp [_apply_to_data_len, py_len] at h
    exact h.symm
  | hmap es ihes =>
    intro e h
    rw [_apply_to_data_len] at h
    cases hv : _apply_to_data_len_vals es with
    | error e2 =>
      rw [hv] at h
      injection h with h2
      exact _apply_to_data_len_vals_err_aux ihes e (h2 ▸ hv)
    | ok ts =>
      rw [hv] at h
      exact absurd h (by simp)
  | hseq xs ihxs =>
    intro e h
    rw [_apply_to_data_len] at h
    cases hl : _apply_to_data_len_list xs with
    | error e2 =>
      rw [hl] at h
      have he2 := _apply_to_data_len_list_err_aux ihxs e2 hl
      subst he2
      exact absurd h (by simp)
    | ok ts =>
      rw [hl] at h
      exact absurd h (by simp)

theorem _apply_to_data_len_list_mem_err {xs : List Container} {x : Container} {e : Err}
    (hx : x ∈ xs) (he : _apply_to_data_len x = .error e) :
    ∃ e2, _apply_to_data_len_list xs = .error e2 := by
  induction xs with
  | nil => exact absurd hx (List.not_mem_nil x)
  | cons y rest ih =>
    rw [_apply_to_data_len_list]
    rcases List.mem_cons.mp hx with h2 | h2
    · rw [← h2, he]
      exact ⟨e, rfl⟩
    · cases hy : _apply_to_data_len y with
      | error e3 => exact ⟨e3, rfl⟩
      | ok t =>
        obtain ⟨e2, hr⟩ := ih h2
        rw [hr]
        exact ⟨e2, rfl⟩

theorem dedup_all_eq {ls : List Nat} {n : Nat} (hne : ls ≠ [])
    (hall : ∀ m ∈ ls, m = n) : ls.dedup = [n] := by
  induction ls with
  | nil => exact absurd rfl hne
  | cons m rest ih =>
    have hm : m = n := hall m (by simp)
    subst hm
    cases rest with
    | nil => simp
    | cons m2 rest2 =>
      have hm2 : m2 = m := hall m2 (by simp)
      have hmem : m ∈ m2 :: rest2 := by simp [hm2]
      rw [List.dedup_cons_of_mem hmem]
      exact ih (by simp) (fun m3 hm3 => hall m3 (by simp [hm3]))

theorem dedup_two_distinct {ls : List Nat} {a b : Nat} (ha : a ∈ ls) (hb : b ∈ ls)
    (hab : a ≠ b) : ∀ n, ls.dedup ≠ [n] := by
  intro n hc
  have ha2 : a ∈ ls.dedup := List.mem_dedup.mpr ha
  have hb2 : b ∈ ls.dedup := List.mem_dedup.mpr hb
  rw [hc] at ha2 hb2
  simp at ha2 hb2
  exact hab (ha2.trans hb2.symm)

theorem mi_map_vals_eq_direct (es : List (String × Container)) (i : NIdx) :
    mi_map_vals es i = select_map_direct es i := by
  induction es with
  | nil => rfl
  | cons kv rest ih =>
    rw [mi_map_vals, select_map_direct, ← ih]
    cases py_getitem kv.2 i with
    | error e => cases mi_map_vals rest i <;> rfl
    | ok v2 => cases mi_map_vals rest i <;> rfl

theorem mi_map_vals_keys {es es2 : List (String × Container)} {i : NIdx}
    (h : mi_map_vals es i = .ok es2) : es2.map Prod.fst = es.map Prod.fst := by
  induction es generalizing es2 with
  | nil =>
    simp [mi_map_vals] at h
    simp [← h]
  | cons kv rest ih =>
    rw [mi_map_vals] at h
    cases hg : py_getitem kv.2 i with
    | error e => rw [hg] at h; exact absurd h (by simp)
    | ok v2 =>
      rw [hg] at h
      cases hr : mi_map_vals rest i with
      | error e => rw [hr] at h; exact absurd h (by simp)
      | ok rs =>
        rw [hr] at h
        injection h with h2
        rw [← h2]
        simp [ih hr]

theorem to_numpy_opt_err {y : Option Container} {e : Err}
    (h : to_numpy_opt y = .error e) : e = .attributeError := by
  cases y with
  | none => simp [to_numpy_opt] at h; exact h.symm
  | some c =>
    cases c <;> simp [to_numpy_opt, to_numpy] at h <;> exact h.symm

theorem true_positions_from_replicate_false (n : Nat) :
    ∀ j, true_positions_from j (List.replicate n false) = [] := by
  induction n with
  | zero => intro j; rfl
  | succ m ih => intro j; simp [List.replicate, true_positions_from, ih]

theorem _apply_to_data_len_vals_congr :
    ∀ es es2 : List (String × Container), es.map Prod.snd = es2.map Prod.snd →
      _apply_to_data_len_vals es = _apply_to_data_len_vals es2 := by
  intro es
  induction es with
  | nil =>
    intro es2 h
    cases es2 with
    | nil => rfl
    | cons kv2 rest2 => simp at h
  | cons kv rest ih =>
    intro es2 h
    cases es2 with
    | nil => simp at h
    | cons kv2 rest2 =>
      simp at h
      rw [_apply_to_data_len_vals, _apply_to_data_len_vals, h.1, ih rest2 h.2]

/-- Claim C1: the claim reads "for every Dataset constructed with a non-None
explicit_length argument, construction succeeds without resolving any
container lengths, and a subsequent call to `__len__()` returns exactly that
explicit length". The construction half is true, but `__len__` is broken on
this path: `__init__` stores the explicit length in `self._length`
(line 161) while `__len__` reads `self._len` (line 172), an attribute the
explicit-length path never sets, so `len(Dataset(X, length=5))` raises
`AttributeError` instead of returning 5 — contradicting the docstring of the
constructor itself ("length ... determines the length (`len`) of the data"). -/
theorem claim_c1_explicit_length :
    Dataset.init (.arr [1,2,3]) Option.none false (some 5)
      = .ok { X := .arr [1,2,3], y := Option.none, use_cuda := false,
              _length := some 5, _len := Option.none }
  ∧ Dataset.len { X := .arr [1,2,3], y := Option.none, use_cuda := false,
                  _length := some 5, _len := Option.none }
      = .error .attributeError :=
  ⟨rfl, rfl⟩

/-- Claim C2, counterexample: selection on a Mapping does not recurse with
full type dispatch. For the Mapping `{"a": [[10,20],[30,40]]}` and index 0,
top-level `multi_indexing` on the inner Sequence-of-arrays value would give
`[10, 30]` (first element of each array), but through the Mapping the value
is indexed directly (`v[0]`), giving the first list element `[10,20]` — so
the Mapping result does not equal `select` applied to the value. -/
theorem claim_c2_counterexample :
    multi_indexing (.map [("a", .seq [.arr [10,20], .arr [30,40]])]) (.int 0)
      = .ok (.map [("a", .arr [10,20])])
  ∧ multi_indexing (.seq [.arr [10,20], .arr [30,40]]) (.int 0)
      = .ok (.seq [.scalar 10, .scalar 30])
  ∧ (Container.arr [10,20]) ≠ .seq [.scalar 10, .scalar 30] :=
  ⟨rfl, rfl, fun h => Container.noConfusion h⟩

/-- Claim C2, amended: for every Mapping container and supported index,
`select` returns a Mapping with the same keys in which each value is the
result of applying the native `[]` operator of the value itself with the normalized
index (`{k: v[i] for k, v in data.items()}`) — not a recursive
`multi_indexing` call, so nested Mappings, Sequences and Tensors inside a
Mapping get no type dispatch and no integer-list bridging. -/
theorem claim_c2_amended :
    (∀ es i i2, normalize_idx i = .ok i2 →
        multi_indexing (.map es) i
          = (match select_map_direct es i2 with
             | .error e => .error e
             | .ok es2 => .ok (.map es2)))
  ∧ (∀ es i es2, multi_indexing (.map es) i = .ok (.map es2) →
        es2.map Prod.fst = es.map Prod.fst) := by
  constructor
  · intro es i i2 h
    rw [multi_indexing, h]
    simp only [mi_dispatch]
    rw [mi_map_vals_eq_direct]
  · intro es i es2 h
    rw [multi_indexing] at h
    cases hn : normalize_idx i with
    | error e => rw [hn] at h; exact absurd h (by simp)
    | ok i2 =>
      rw [hn] at h
      simp only [mi_dispatch] at h
      cases hm : mi_map_vals es i2 with
      | error e => rw [hm] at h; exact absurd h (by simp)
      | ok es3 =>
        rw [hm] at h
        injection h with h2
        injection h2 with h3
        exact h3 ▸ mi_map_vals_keys hm

/-- Witness for the amended claim C2: a Mapping holding a Tensor, indexed
with an integer array, follows the direct-getitem semantics (and in
particular fails with `TypeError`, where top-level dispatch would have
bridged the list to a `LongTensor`); and a successful Mapping selection
preserves the keys. -/
theorem claim_c2_amended_witness :
    multi_indexing (.map [("a", .tensor [1,2,3])]) (.arrInt [0,2])
      = (match select_map_direct [("a", .tensor [1,2,3])] (.ilist [0,2]) with
         | .error e => .error e
         | .ok es2 => .ok (.map es2))
  ∧ ([("a", Container.scalar 1)].map Prod.fst
      = [("a", Container.arr [1,2])].map Prod.fst) :=
  ⟨claim_c2_amended.1 [("a", .tensor [1,2,3])] (.arrInt [0,2]) (.ilist [0,2]) rfl,
   claim_c2_amended.2 [("a", .arr [1,2])] (.int 0) [("a", .scalar 1)] rfl⟩

/-- Claim C5: for every nested container whose collected leaf lengths all
equal `n` (and there is at least one leaf), `get_len` returns `n`; whenever
two collected leaf lengths differ, it raises the inconsistent-lengths
`ValueError`; Mapping values are flattened ignoring the keys (the collected
lengths depend only on the values); and a Sequence one of whose elements is
not itself measurable as a container (its recursive descent raises
`TypeError`) is treated as a single opaque leaf whose own `len()` — its
element count — is the only length collected for it. -/
theorem claim_c5_length_resolution :
    (∀ c ls n, leaf_lens c = .ok ls → ls ≠ [] → (∀ m ∈ ls, m = n) →
        get_len c = .ok n)
  ∧ (∀ c ls a b, leaf_lens c = .ok ls → a ∈ ls → b ∈ ls → a ≠ b →
        get_len c = .error .inconsistentLengths)
  ∧ (∀ es es2 : List (String × Container), es.map Prod.snd = es2.map Prod.snd →
        leaf_lens (.map es) = leaf_lens (.map es2))
  ∧ (∀ xs x e, x ∈ xs → _apply_to_data_len x = .error e →
        leaf_lens (.seq xs) = .ok [xs.length]) := by
  refine ⟨?_, ?_, ?_, ?_⟩
  · intro c ls n h hne hall
    simp only [get_len, h, dedup_all_eq hne hall]
  · intro c ls a b h ha hb hab
    simp only [get_len, h]
    have hd := dedup_two_distinct ha hb hab
    cases hdd : ls.dedup with
    | nil => rfl
    | cons m rest =>
      cases rest with
      | nil => exact absurd hdd (hd m)
      | cons m2 r2 => rfl
  · intro es es2 h
    simp only [leaf_lens, _apply_to_data_len]
    rw [_apply_to_data_len_vals_congr es es2 h]
  · intro xs x e hx he
    obtain ⟨e2, hl⟩ := _apply_to_data_len_list_mem_err hx he
    have he2 := _apply_to_data_len_list_err_aux
      (fun y _ => _apply_to_data_len_err y) e2 hl
    subst he2
    simp only [leaf_lens, _apply_to_data_len, hl, LenTree.flat]

/-- Witness for claim C5: a consistent nested container resolves to its
common length 2; an inconsistent one raises; the collected lengths ignore
Mapping keys; and a Sequence containing a bare number is one opaque leaf of
length 2 (its element count). -/
theorem claim_c5_witness :
    get_len (.map [("a", .arr [1,2]), ("b", .seq [.tensor [3,4], .arr [5,6]])]) = .ok 2
  ∧ get_len (.map [("a", .arr [1]), ("b", .arr [2,3])]) = .error .inconsistentLengths
  ∧ leaf_lens (.map [("a", .arr [1,2])]) = leaf_lens (.map [("b", .arr [1,2])])
  ∧ leaf_lens (.seq [.arr [1,2], .scalar 7]) = .ok [2] :=
  ⟨claim_c5_length_resolution.1
      (.map [("a", .arr [1,2]), ("b", .seq [.tensor [3,4], .arr [5,6]])])
      [2,2,2] 2 rfl (by decide) (by decide),
   claim_c5_length_resolution.2.1
      (.map [("a", .arr [1]), ("b", .arr [2,3])]) [1,2] 1 2 rfl
      (by decide) (by decide) (by decide),
   claim_c5_length_resolution.2.2.1
      [("a", .arr [1,2])] [("b", .arr [1,2])] rfl,
   claim_c5_length_resolution.2.2.2
      [.arr [1,2], .scalar 7] (.scalar 7) .typeError (by simp) rfl⟩

/-- Claim C6: for every container and boolean mask, selection with the mask
equals selection with the plain list of integer positions at which the mask
is true (the normalization step maps both to the same normalized index); in
particular an all-false mask over an array selects the empty array. -/
theorem claim_c6_boolean_mask :
    (∀ data bs, multi_indexing data (.arrBool bs)
        = multi_indexing data (.ilist (true_positions bs)))
  ∧ (∀ (xs : List Int) n,
        multi_indexing (.arr xs) (.arrBool (List.replicate n false))
          = .ok (.arr [])) := by
  constructor
  · intro data bs
    rfl
  · intro xs n
    have htp : true_positions (List.replicate n false) = [] :=
      true_positions_from_replicate_false n 0
    rw [multi_indexing]
    simp only [normalize_idx, htp, mi_dispatch, mi_tail, safe_indexing, np_fancy, Except.map]

/-- Claim C7: an array-typed index whose element type is neither boolean nor
integer makes `multi_indexing` raise the index-type `IndexError` for every
container (the container is never inspected), while boolean and integer
array indices can never produce that error. -/
theorem claim_c7_index_dtype :
    (∀ data, multi_indexing data .arrOther = .error .indexTypeError)
  ∧ (∀ data bs, multi_indexing data (.arrBool bs) ≠ .error .indexTypeError)
  ∧ (∀ data ks, multi_indexing data (.arrInt ks) ≠ .error .indexTypeError) := by
  refine ⟨fun data => rfl, ?_, ?_⟩
  · intro data bs hcon
    exact mi_dispatch_err data (.ilist (true_positions bs)) .indexTypeError hcon rfl
  · intro data ks hcon
    exact mi_dispatch_err data (.ilist ks) .indexTypeError hcon rfl

/-- Witness for claim C7, at concrete containers and indices. -/
theorem claim_c7_witness :
    multi_indexing (.arr [1,2]) .arrOther = .error .indexTypeError
  ∧ multi_indexing (.map [("a", .arr [1,2])]) .arrOther = .error .indexTypeError :=
  ⟨claim_c7_index_dtype.1 (.arr [1,2]),
   claim_c7_index_dtype.1 (.map [("a", .arr [1,2])])⟩

/-- Claim C9: constructing `CVSplit` with a numeric `cv` that is ≤ 0 raises
the configuration `ValueError` eagerly; any positive numeric `cv` and any
non-numeric `cv` (`None`, a splitter object, an iterable of index pairs)
constructs successfully. -/
theorem claim_c9_construction_guard :
    (∀ (n : Int) strat, n ≤ 0 →
        CVSplit.init (.int n) strat = .error .configurationError)
  ∧ (∀ (q : Rat) strat, q ≤ 0 →
        CVSplit.init (.float q) strat = .error .configurationError)
  ∧ (∀ (n : Int) strat, 0 < n →
        CVSplit.init (.int n) strat = .ok { cv := .int n, stratified := strat })
  ∧ (∀ (q : Rat) strat, 0 < q →
        CVSplit.init (.float q) strat = .ok { cv := .float q, stratified := strat })
  ∧ (∀ strat, CVSplit.init CVSpec.none strat
        = .ok { cv := CVSpec.none, stratified := strat })
  ∧ (∀ s strat, CVSplit.init (.splitterObj s) strat
        = .ok { cv := .splitterObj s, stratified := strat })
  ∧ (∀ strat, CVSplit.init .iterable strat
        = .ok { cv := .iterable, stratified := strat }) := by
  refine ⟨?_, ?_, ?_, ?_, fun strat => rfl, fun s strat => rfl, fun strat => rfl⟩
  · intro n strat h
    have h2 : (n : Rat) ≤ 0 := by exact_mod_cast h
    simp [CVSplit.init, CVSpec.isNumber, CVSpec.numVal, h2]
  · intro q strat h
    simp [CVSplit.init, CVSpec.isNumber, CVSpec.numVal, h]
  · intro n strat h
    have h2 : ¬((n : Rat) ≤ 0) := not_le.mpr (by exact_mod_cast h)
    simp [CVSplit.init, CVSpec.isNumber, CVSpec.numVal, h2]
  · intro q strat h
    simp [CVSplit.init, CVSpec.isNumber, CVSpec.numVal, not_le.mpr h]

/-- Witness for claim C9 at concrete specs: `cv = 0` and `cv = -0.5` are
rejected, `cv = 5` and `cv = 0.3` are accepted. -/
theorem claim_c9_witness :
    CVSplit.init (.int 0) false = .error .configurationError
  ∧ CVSplit.init (.float (-(1/2))) true = .error .configurationError
  ∧ CVSplit.init (.int 5) false = .ok { cv := .int 5, stratified := false }
  ∧ CVSplit.init (.float (3/10)) false
      = .ok { cv := .float (3/10), stratified := false } :=
  ⟨claim_c9_construction_guard.1 0 false (by norm_num),
   claim_c9_construction_guard.2.1 (-(1/2)) true (by norm_num),
   claim_c9_construction_guard.2.2.1 5 false (by norm_num),
   claim_c9_construction_guard.2.2.2.1 (3/10) false (by norm_num)⟩

/-- Claim C10: a container that flattens to zero leaf lengths — an empty
Mapping or empty Sequence — makes `get_len` raise the inconsistent-lengths
error even though no two leaves disagree; `get_len` succeeds exactly when the
set of collected leaf lengths has exactly one element; and `Dataset`
construction without an explicit length therefore fails on empty
containers. -/
theorem claim_c10_empty_containers :
    get_len (.map []) = .error .inconsistentLengths
  ∧ get_len (.seq []) = .error .inconsistentLengths
  ∧ Dataset.init (.map []) Option.none false Option.none
      = .error .inconsistentLengths
  ∧ Dataset.init (.seq []) Option.none false Option.none
      = .error .inconsistentLengths
  ∧ (∀ c, (∃ n, get_len c = .ok n) ↔
        (∃ ls, leaf_lens c = .ok ls ∧ ls.toFinset.card = 1)) := by
  refine ⟨rfl, rfl, rfl, rfl, ?_⟩
  intro c
  constructor
  · rintro ⟨n, hn⟩
    cases hl : leaf_lens c with
    | error e => simp [get_len, hl] at hn
    | ok ls =>
      simp only [get_len, hl] at hn
      refine ⟨ls, rfl, ?_⟩
      rw [List.card_toFinset]
      cases hdd : ls.dedup with
      | nil => rw [hdd] at hn; exact absurd hn (by simp)
      | cons m rest =>
        cases rest with
        | nil => simp
        | cons m2 r2 => rw [hdd] at hn; exact absurd hn (by simp)
  · rintro ⟨ls, hl, hcard⟩
    rw [List.card_toFinset] at hcard
    simp only [get_len, hl]
    cases hdd : ls.dedup with
    | nil => rw [hdd] at hcard; simp at hcard
    | cons m rest =>
      cases rest with
      | nil => exact ⟨m, rfl⟩
      | cons m2 r2 => rw [hdd] at hcard; simp at hcard

/-- Witness for claim C10: the success-characterization applied to a
singleton-length container. -/
theorem claim_c10_witness :
    ∃ ls, leaf_lens (.arr [1,2,3]) = .ok ls ∧ ls.toFinset.card = 1 :=
  (claim_c10_empty_containers.2.2.2.2 (.arr [1,2,3])).mp ⟨3, rfl⟩

/-- Claim C4: with `stratified` set, the coercion of `y` to numeric array
form inside `check_cv` is best-effort — the resolver always produces a
splitter (no coercion failure ever escapes to the caller), and when the
coercion fails it proceeds with the original `y` as `y_arr`. This rests on
the coercion failure mode being `AttributeError`, the exception class the
`except` clause names, which is how the spec-modelled `to_numpy` fails. -/
theorem claim_c4_coercion_best_effort :
    (∀ cs y, ∃ s, CVSplit.check_cv cs y = .ok s)
  ∧ (∀ cs y e, cs.stratified = true → to_numpy_opt y = .error e →
        CVSplit.check_cv cs y = .ok (cs.check_cv_with y)) := by
  constructor
  · intro cs y
    rw [CVSplit.check_cv]
    cases hs : cs.stratified with
    | false => exact ⟨cs.check_cv_with Option.none, by simp⟩
    | true =>
      cases ht : to_numpy_opt y with
      | ok v => exact ⟨cs.check_cv_with v, by simp [ht]⟩
      | error e =>
        have he := to_numpy_opt_err ht
        subst he
        exact ⟨cs.check_cv_with y, by simp [ht]⟩
  · intro cs y e hs ht
    have he := to_numpy_opt_err ht
    subst he
    rw [CVSplit.check_cv]
    simp [hs, ht]

/-- Witness for claim C4: a list-shaped `y` fails the coercion, and the
stratified resolver still returns a splitter, resolved against the original
`y`. -/
theorem claim_c4_witness :
    (∃ s, CVSplit.check_cv { cv := CVSpec.none, stratified := false } Option.none
        = .ok s)
  ∧ CVSplit.check_cv { cv := .int 3, stratified := true } (some (.seq [.arr [1]]))
      = .ok (CVSplit.check_cv_with { cv := .int 3, stratified := true }
              (some (.seq [.arr [1]]))) :=
  ⟨claim_c4_coercion_best_effort.1 { cv := CVSpec.none, stratified := false }
      Option.none,
   claim_c4_coercion_best_effort.2 { cv := .int 3, stratified := true }
      (some (.seq [.arr [1]])) .attributeError rfl rfl⟩

/-- Claim C8: when stratification is requested but the splitter that
resolution produced is not one of the stratified kinds, `__call__` fails
with the stratification `ValueError`; the failure is independent of the
split function, so no split is executed and no partition is produced. -/
theorem claim_c8_stratification_guard :
    ∀ cs (fs : SplitFn) X y cv, cs.stratified = true →
      CVSplit.check_cv cs y = .ok cv → cs._is_stratified cv = false →
      CVSplit.call cs fs X y = .error .stratificationError := by
  intro cs fs X y cv hs hc hns
  rw [CVSplit.call, hc]
  simp [hs, hns]

/-- Witness for claim C8: a plain (non-stratified) `KFold` object passed as
`cv` with `stratified=True` makes the call fail. -/
theorem claim_c8_witness :
    CVSplit.call { cv := .splitterObj (.kfold 5), stratified := true } demo_split
      (.arr [0,1,2,3]) (some (.arr [0,1,0,1])) = .error .stratificationError :=
  claim_c8_stratification_guard
    { cv := .splitterObj (.kfold 5), stratified := true } demo_split
    (.arr [0,1,2,3]) (some (.arr [0,1,0,1])) (.kfold 5) rfl rfl rfl

/-- Claim C3, counterexample: on the Dataset fallback path the `y`
partitions are not `None` even though the source `y` is `None`. A Mapping
`X` forces the fallback; with `y = None` the call succeeds and returns
synthesized zero tensors as `y_train`/`y_valid`, so "y_train/y_valid are
None iff the source y was None, regardless of path" is false. -/
theorem claim_c3_counterexample :
    CVSplit.call { cv := .int 2, stratified := false } demo_split
      (.map [("a", .arr [5,6,7,8])]) Option.none
      = .ok (.map [("a", .tensor [5,6])], .map [("a", .tensor [7,8])],
             some (.tensor [0,0]), some (.tensor [0,0]))
  ∧ (some (Container.tensor [0,0]) ≠ (Option.none : Option Container)) :=
  ⟨rfl, fun h => Option.noConfusion h⟩

/-- Claim C3, amended: on the regular (native split) path the `y` partitions
are `None` exactly when the source `y` is `None`; on the Dataset fallback
path the `y` partitions are never `None` (when `y` is `None` they are
synthesized zero-filled placeholder tensors). -/
theorem claim_c3_amended :
    (∀ cs (fs : SplitFn) X y cv r, CVSplit.regular_cv cs fs X y cv = .ok r →
        ((r.2.2.1 = Option.none ∧ r.2.2.2 = Option.none) ↔ y = Option.none))
  ∧ (∀ cs (fs : SplitFn) X y cv r, CVSplit.special_cv cs fs X y cv = .ok r →
        r.2.2.1 ≠ Option.none ∧ r.2.2.2 ≠ Option.none) := by
  constructor
  · intro cs fs X y cv r h
    simp only [CVSplit.regular_cv] at h
    split at h
    · exact absurd h (by simp)
    · split at h
      · exact absurd h (by simp)
      · split at h
        · injection h with h2
          rw [← h2]
          simp
        · split at h
          · exact absurd h (by simp)
          · split at h
            · exact absurd h (by simp)
            · injection h with h2
              rw [← h2]
              simp
  · intro cs fs X y cv r h
    simp only [CVSplit.special_cv] at h
    split at h
    · exact absurd h (by simp)
    · split at h
      · exact absurd h (by simp)
      · split at h
        · exact absurd h (by simp)
        · split at h
          · exact absurd h (by simp)
          · split at h
            · exact absurd h (by simp)
            · injection h with h2
              rw [← h2]
              simp

/-- Witness for the amended claim C3: the regular path applied to arrays
(`y` present: the iff holds with both sides false-free), and the fallback
path applied to a Mapping with `y = None` (both partitions non-`None`). -/
theorem claim_c3_amended_witness :
    ((some (Container.arr [1,2]) = (Option.none : Option Container)
        ∧ some (Container.arr [3,4]) = (Option.none : Option Container))
      ↔ (some (Container.arr [1,2,3,4]) = (Option.none : Option Container)))
  ∧ (some (Container.tensor [0,0]) ≠ (Option.none : Option Container)
      ∧ some (Container.tensor [0,0]) ≠ (Option.none : Option Container)) :=
  ⟨claim_c3_amended.1 { cv := .int 2, stratified := false } demo_split
      (.arr [5,6,7,8]) (some (.arr [1,2,3,4])) (.kfold 2)
      (.arr [5,6], .arr [7,8], some (.arr [1,2]), some (.arr [3,4])) rfl,
   claim_c3_amended.2 { cv := .int 2, stratified := false } demo_split
      (.map [("a", .arr [5,6,7,8])]) Option.none (.kfold 2)
      (.map [("a", .tensor [5,6])], .map [("a", .tensor [7,8])],
       some (.tensor [0,0]), some (.tensor [0,0])) rfl⟩
